import Mathlib

/-!
Verification of the dead-man-switch program (src/main.go) against its
natural-language specification.  The Go program is shallowly embedded:

* the `config` struct becomes a Lean structure (Go `int` fields become `Int`,
  `time.Duration` becomes `Int` nanoseconds; no arithmetic in the claims can
  overflow 64 bits, so wrap-around is not modelled);
* the randomness source `rand.Intn(62)` is modelled by an oracle
  `rand : Nat → Nat` whose value is reduced mod 62, which is exactly the
  guarantee `Intn` gives;
* the external effects (TCP dial, RFC 5322 address parsing from the Go
  standard library, SMTP sends) are oracles in a `NetEnv` record; a mail
  that would be sent is returned as a `Mail` value instead;
* the per-tick body of `clock` becomes the pure step `clockTick`; the HTTP
  handler closure registered in `waitForCode` becomes `handleRequest`;
  `getSecret` becomes a pure function over the list of stdin lines, with
  the panicking Go string slice modelled by `Except GoPanic`.
-/

/-- The `config` struct of main.go.  Field order and names follow the source;
`Tick` (a `time.Duration`) is in nanoseconds. -/
structure config where
  UserEmail : String
  MXServer : String
  MXPort : String
  Recipients : String
  Intervals : Int
  Forgive : Int
  ForgiveCode : String
  Password : String
  Secret : String
  Tick : Int
deriving DecidableEq, Repr

/-- Go zero value of `config`: what `&config\x7b\x7d` builds in `main`. -/
def emptyConfig : config :=
  { UserEmail := "", MXServer := "", MXPort := "", Recipients := ""
    Intervals := 0, Forgive := 0, ForgiveCode := "", Password := ""
    Secret := "", Tick := 0 }

/-- The 62-rune alphabet of `generateCode` in source order. -/
def letters : List Char :=
  "abcdefghijklmnopqrstuvwxyzABCDEFGHIJKLMNOPQRSTUVWXYZ0123456789".toList

/-- `generateCode(n)` from main.go.  `rand i` models the i-th call to
`rand.Intn(len(letters))`; taking it mod `letters.length` is the range
guarantee `Intn` provides. -/
def generateCode (n : Nat) (rand : Nat → Nat) : String :=
  String.mk ((List.range n).map (fun i =>
    letters.get ⟨rand i % letters.length, Nat.mod_lt _ (by decide)⟩))

/-- An email handed to `smtp.SendMail`: server address, sender, recipient
list, message body.  (The Go parameter name for the recipient list, `to`, is a
Lean keyword, hence `rcpt`.) -/
structure Mail where
  addr : String
  sender : String
  rcpt : List String
  msg : String
deriving DecidableEq, Repr

/-- The `MXServer:MXPort` target string built for `smtp.SendMail`. -/
def mailTarget (c : config) : String := c.MXServer ++ ":" ++ c.MXPort

/-- The final mail of `clock` (lines 198-200): the secret, sent to the
comma-split recipient list. -/
def triggerMail (c : config) : Mail :=
  { addr := mailTarget c, sender := c.UserEmail
    rcpt := c.Recipients.splitOn ","
    msg := c.UserEmail ++ "\x27s Dead Man\x27s Switch here, the secret is" ++ c.Secret }

/-- The challenge mail of `clock` (lines 208-210): the fresh code, sent to
the own address of the operator. -/
def challengeMail (c : config) (code : String) : Mail :=
  { addr := mailTarget c, sender := c.UserEmail, rcpt := [c.UserEmail]
    msg := "Your Dead Man\x27s Switch here, are you still there? Make a request: http://server:9999/" ++ code }

/-- Result of one firing of the `time.Tick` case in `clock`: either the
switch triggers (the final mail is sent and `clock` returns), or a new
challenge is issued (mail sent, state updated). -/
inductive TickOutcome where
  | trigger (m : Mail)
  | challenge (m : Mail) (next : config)
deriving DecidableEq, Repr

/-- One tick of `clock` (main.go lines 192-212): decrement `Forgive`
unconditionally; if it went negative, send the secret to the recipients and
stop; otherwise generate a 16-rune code, store it in `ForgiveCode` and mail
it to the operator. -/
def clockTick (c : config) (rand : Nat → Nat) : TickOutcome :=
  let c1 : config := { c with Forgive := c.Forgive - 1 }
  if c1.Forgive < 0 then
    TickOutcome.trigger (triggerMail c1)
  else
    let code := generateCode 16 rand
    TickOutcome.challenge (challengeMail c1 code) { c1 with ForgiveCode := code }

/-- The HTTP handler closure of `waitForCode` (main.go lines 222-227),
applied to the raw request target `r.RequestURI`.  The boolean records
whether the acceptance branch ran (the abstract `reportCheckIn` result). -/
def handleRequest (c : config) (requestURI : String) : config × Bool :=
  if c.ForgiveCode ≠ "" ∧ requestURI = c.ForgiveCode then
    ({ c with Forgive := c.Forgive + 1, ForgiveCode := "" }, true)
  else
    (c, false)

/-- A Go runtime panic relevant to this program. -/
inductive GoPanic where
  | sliceOutOfRange
deriving DecidableEq, Repr

/-- Go string slicing `s[lo:hi]`: panics unless `lo ≤ hi ≤ len(s)`.
(Lines are treated as ASCII, so `String.length` matches the Go byte length.) -/
def stringSlice (s : String) (lo hi : Nat) : Except GoPanic String :=
  if lo ≤ hi ∧ hi ≤ s.length then
    Except.ok (String.mk ((s.toList.drop lo).take (hi - lo)))
  else
    Except.error GoPanic.sliceOutOfRange

/-- The scan loop of `getSecret` (main.go lines 109-117) over the list of
stdin lines, accumulating `lines` in reverse.  A line of length 1 reaches
the slice `line[0:3]`, which panics; the `break` on a slice equal to "EOF"
sits behind that slice. -/
def getSecretLoop : List String → List String → Except GoPanic (List String)
  | [], acc => Except.ok acc.reverse
  | line :: rest, acc =>
    if line.length = 1 then
      match stringSlice line 0 3 with
      | Except.error p => Except.error p
      | Except.ok pre =>
        if pre = "EOF" then Except.ok acc.reverse
        else getSecretLoop rest (line :: acc)
    else getSecretLoop rest (line :: acc)

/-- `getSecret` of main.go: scan all stdin lines, then join the collected
lines with a newline into the secret. -/
def getSecret (input : List String) : Except GoPanic String :=
  match getSecretLoop input [] with
  | Except.error p => Except.error p
  | Except.ok lines => Except.ok (String.intercalate "\n" lines)

-- The two-activity system of main: the clock loop owns its own config
-- (started on the zero value in main, line 274) while the HTTP handler
-- reads and mutates the distinct global cfg.

/-- State of the `clock` goroutine: still looping on some config, or
returned (the switch triggered, after which `main` exits). -/
inductive LoopState where
  | running (c : config)
  | stopped
deriving DecidableEq, Repr

/-- One `time.Tick` firing seen from the loop state. -/
def loopTick (ls : LoopState) (rand : Nat → Nat) : LoopState :=
  match ls with
  | LoopState.stopped => LoopState.stopped
  | LoopState.running c =>
    match clockTick c rand with
    | TickOutcome.trigger _ => LoopState.stopped
    | TickOutcome.challenge _ c2 => LoopState.running c2

/-- Whole-process state: the private config of the clock and the global `cfg`
mutated by the HTTP handler. -/
structure SysState where
  loop : LoopState
  glob : config
deriving DecidableEq, Repr

/-- An inbound HTTP request once the clock has returned is never processed
(`main` exits, taking the server goroutine with it); otherwise the handler
closure runs against the global config.  The boolean is the abstract
`reportCheckIn` result: whether the acceptance branch ran. -/
def sysCallback (s : SysState) (uri : String) : SysState × Bool :=
  match s.loop with
  | LoopState.stopped => (s, false)
  | LoopState.running _ =>
    ({ s with glob := (handleRequest s.glob uri).1 }, (handleRequest s.glob uri).2)

/-- An event of the concurrent system: a timer tick (with its randomness)
or an inbound HTTP request with a raw request target. -/
inductive Event where
  | tick (rand : Nat → Nat)
  | callback (uri : String)

/-- Interleaved execution step. -/
def sysStep (s : SysState) (e : Event) : SysState :=
  match e with
  | Event.tick r => { s with loop := loopTick s.loop r }
  | Event.callback uri => (sysCallback s uri).1

/-- Run the system over a sequence of events. -/
def runSys (s : SysState) (es : List Event) : SysState :=
  es.foldl sysStep s

/-- The timer ticks, in order, of an event sequence. -/
def ticksOf (es : List Event) : List (Nat → Nat) :=
  es.filterMap (fun e =>
    match e with
    | Event.tick r => some r
    | Event.callback _ => none)

/-- One tick of the clock loop, also recording the mail it sends (if any).
A stopped loop ignores further ticks. -/
def loopStepM (s : LoopState × List Mail) (rand : Nat → Nat) : LoopState × List Mail :=
  match s.1 with
  | LoopState.stopped => s
  | LoopState.running c =>
    match clockTick c rand with
    | TickOutcome.trigger m => (LoopState.stopped, s.2 ++ [m])
    | TickOutcome.challenge m c2 => (LoopState.running c2, s.2 ++ [m])

/-- Run the clock from config `c` over a list of tick randomness sources,
collecting the mails sent. -/
def runClock (c : config) (rands : List (Nat → Nat)) : LoopState × List Mail :=
  rands.foldl loopStepM (LoopState.running c, [])

-- Startup validation (`checks`, main.go lines 53-97).  The external
-- collaborators — TCP dial, the Go standard library address parsers, the
-- test mail — are oracles in a NetEnv record.  In `main` the receiver and
-- the global cfg are the same object, so a single config is passed.

/-- Outcomes of the external preflight steps consumed by `checks`. -/
structure NetEnv where
  dialOk : Bool
  parseAddrOk : String → Bool
  parseListOk : String → Bool
  sendOk : Bool

/-- The error exits of `checks`, in source order. -/
inductive CheckErr where
  | dialErr
  | addrErr
  | listErr
  | sendErr
deriving DecidableEq, Repr

/-- One hour (`time.Hour`) in nanoseconds. -/
def hourNs : Int := 3600000000000

/-- `DefaultClockTick = 24 * time.Hour` (main.go line 33). -/
def DefaultClockTick : Int := 24 * hourNs

/-- `checks` of main.go: dial the mail host, parse the owner address, parse
the recipient list, send a test mail — propagating the first failure — then
set the tick: `Intervals * 24h` if the interval is positive, else the
24-hour default.  A non-positive interval is never an error. -/
def checks (env : NetEnv) (c : config) : Except CheckErr config :=
  if !env.dialOk then Except.error CheckErr.dialErr
  else if !env.parseAddrOk c.UserEmail then Except.error CheckErr.addrErr
  else if !env.parseListOk c.Recipients then Except.error CheckErr.listErr
  else if !env.sendOk then Except.error CheckErr.sendErr
  else Except.ok { c with
    Tick := if 0 < c.Intervals then c.Intervals * 24 * hourNs else DefaultClockTick }

-- Theorems

/-- Claim C1 (code bug): for every state of the handler — in particular for
every outstanding pending code — the request whose path minus the leading
separator equals the pending code (raw request target "/" ++ code, which is
what visiting the URL the program emails produces) is rejected with no state
change: the handler compares the raw `RequestURI` against the bare code
without stripping the leading separator, so it can never match. -/
theorem c1_slash_request_never_accepted (c : config) :
    handleRequest c ("/" ++ c.ForgiveCode) = (c, false) := by
  unfold handleRequest
  rw [if_neg]
  intro h
  have h2 := congrArg String.length h.2
  rw [String.length_append] at h2
  have h3 : ("/" : String).length = 1 := rfl
  omega

/-- Claim C7 (code bug): the sentinel line "EOF" does not terminate secret
acquisition; it is stored as part of the secret and reading continues to the
end of input, because the sentinel comparison is guarded by a length-1 test
that "EOF" (length 3) never passes. -/
theorem c7_sentinel_not_honored :
    getSecret ["abc", "EOF", "xyz"] = Except.ok "abc\nEOF\nxyz" := by
  rfl

/-- Helper for C8: the scan loop panics on any input containing a line of
length exactly 1, whatever has been accumulated so far. -/
theorem getSecretLoop_panics :
    ∀ (input acc : List String), (∃ l, l ∈ input ∧ l.length = 1) →
      getSecretLoop input acc = Except.error GoPanic.sliceOutOfRange := by
  intro input
  induction input with
  | nil =>
    intro acc h
    obtain ⟨l, hl, _⟩ := h
    cases hl
  | cons line rest ih =>
    intro acc h
    obtain ⟨l, hl, hlen⟩ := h
    by_cases h1 : line.length = 1
    · simp [getSecretLoop, h1, stringSlice]
    · have hrest : l ∈ rest := by
        rcases List.mem_cons.mp hl with heq | hm
        · exact absurd (heq ▸ hlen) h1
        · exact hm
      simp only [getSecretLoop, if_neg h1]
      exact ih (line :: acc) ⟨l, hrest, hlen⟩

/-- Claim C8: `getSecret` is not total — every input containing a line of
length exactly 1 makes it evaluate the slice `line[0:3]` out of bounds, so
secret acquisition aborts with a slice-out-of-range panic. -/
theorem c8_length_one_line_panics (input : List String)
    (h : ∃ l, l ∈ input ∧ l.length = 1) :
    getSecret input = Except.error GoPanic.sliceOutOfRange := by
  unfold getSecret
  rw [getSecretLoop_panics input [] h]

/-- Witness for C8 at the concrete input ["x"]. -/
theorem c8_witness :
    (∃ l, l ∈ ["x"] ∧ l.length = 1) ∧
      getSecret ["x"] = Except.error GoPanic.sliceOutOfRange :=
  ⟨⟨"x", by simp, by decide⟩,
    c8_length_one_line_panics ["x"] ⟨"x", by simp, by decide⟩⟩

/-- Claim C10: a code generated with length parameter n has length exactly n
and every one of its characters belongs to the 62-character alphanumeric
alphabet, whatever values the randomness source returns. -/
theorem c10_generateCode_length_alphabet (n : Nat) (rand : Nat → Nat) :
    (generateCode n rand).length = n ∧
      ∀ ch ∈ (generateCode n rand).data, ch ∈ letters := by
  constructor
  · simp [generateCode, String.length]
  · intro ch hch
    simp only [generateCode] at hch
    rcases List.mem_map.mp hch with ⟨i, _, rfl⟩
    exact List.get_mem _ _ _

/-- A callback event never touches the loop component. -/
theorem sysCallback_loop (s : SysState) (uri : String) :
    ((sysCallback s uri).1).loop = s.loop := by
  cases h : s.loop <;> simp [sysCallback, h]

/-- The loop component of a run is a function of the ticks alone. -/
theorem runSys_loop_eq (es : List Event) :
    ∀ s : SysState, (runSys s es).loop = (ticksOf es).foldl loopTick s.loop := by
  induction es with
  | nil => intro s; rfl
  | cons e rest ih =>
    intro s
    cases e with
    | tick r => simp [runSys, ticksOf, sysStep, List.foldl_cons] at ih ⊢; exact ih _
    | callback uri =>
      simp only [runSys, ticksOf, sysStep, List.foldl_cons, List.filterMap_cons] at ih ⊢
      rw [ih ((sysCallback s uri).1), sysCallback_loop]

/-- Claim C2: main starts the evaluation loop on a freshly constructed
zero-valued config (`clock(ctx, &config\x7b\x7d)`) while the handler mutates the
distinct global `cfg`; hence for any two event sequences with the same
ticks — differing arbitrarily in callback requests, including none — the
loop state (its Forgive counter and its trigger decision) is identical. -/
theorem c2_callbacks_never_influence_loop (g g2 : config) (es es2 : List Event)
    (h : ticksOf es = ticksOf es2) :
    (runSys { loop := LoopState.running emptyConfig, glob := g } es).loop =
      (runSys { loop := LoopState.running emptyConfig, glob := g2 } es2).loop := by
  rw [runSys_loop_eq, runSys_loop_eq, h]

/-- Witness for C2: a run containing an accepted callback (the global
pending code is hit) versus a run with no callback at all, same single
tick: identical loop state. -/
theorem c2_witness :
    (runSys { loop := LoopState.running emptyConfig,
              glob := { emptyConfig with ForgiveCode := "a" } }
        [Event.callback "a", Event.tick (fun k => k)]).loop =
      (runSys { loop := LoopState.running emptyConfig, glob := emptyConfig }
        [Event.tick (fun k => k)]).loop :=
  c2_callbacks_never_influence_loop { emptyConfig with ForgiveCode := "a" }
    emptyConfig [Event.callback "a", Event.tick (fun k => k)]
    [Event.tick (fun k => k)] rfl

/-- Helper: a non-matching or code-less request leaves the handler state
unchanged and takes the rejecting branch. -/
theorem handleRequest_noop (c : config) (uri : String)
    (h : uri ≠ c.ForgiveCode ∨ c.ForgiveCode = "") :
    handleRequest c uri = (c, false) := by
  unfold handleRequest
  rw [if_neg]
  rintro ⟨hne, heq⟩
  rcases h with h | h
  · exact h heq
  · exact hne h

/-- Claim C9: a `reportCheckIn` with any string other than the current
pending code, or arriving when no code is outstanding, or after the switch
has triggered (the clock loop returned), reports false and changes no state
at all — a silent no-op, not an error. -/
theorem c9_mismatch_silent_noop (s : SysState) (uri : String)
    (h : uri ≠ s.glob.ForgiveCode ∨ s.glob.ForgiveCode = "" ∨ s.loop = LoopState.stopped) :
    sysCallback s uri = (s, false) := by
  obtain ⟨ls, g⟩ := s
  cases ls with
  | stopped => rfl
  | running c =>
    have hg : uri ≠ g.ForgiveCode ∨ g.ForgiveCode = "" := by
      rcases h with h | h | h
      · exact Or.inl h
      · exact Or.inr h
      · simp at h
    simp [sysCallback, handleRequest_noop g uri hg]

/-- Witness for C9: request "x" against pending code "y" is a silent no-op. -/
theorem c9_witness :
    sysCallback { loop := LoopState.running emptyConfig,
                  glob := { emptyConfig with ForgiveCode := "y" } } "x" =
      ({ loop := LoopState.running emptyConfig,
         glob := { emptyConfig with ForgiveCode := "y" } }, false) :=
  c9_mismatch_silent_noop _ "x" (Or.inl (by decide))

/-- Claim C3, amended theorem: a `reportCheckIn` carrying exactly the
current pending code clears the pending code, increments the forgiveness
counter by one (not: resets it to the configured initial budget), and
reports true. -/
theorem c3_amended_match_increments_by_one (c : config) (code : String)
    (hne : c.ForgiveCode ≠ "") (heq : code = c.ForgiveCode) :
    handleRequest c code = ({ c with Forgive := c.Forgive + 1, ForgiveCode := "" }, true) := by
  unfold handleRequest
  rw [if_pos ⟨hne, heq⟩]

/-- Witness for the amended C3. -/
theorem c3_amended_witness :
    handleRequest { emptyConfig with Forgive := 0, ForgiveCode := "k" } "k" =
      ({ emptyConfig with Forgive := 1, ForgiveCode := "" }, true) :=
  c3_amended_match_increments_by_one
    { emptyConfig with Forgive := 0, ForgiveCode := "k" } "k" (by decide) rfl

/-- Counterexample to C3 as stated: with a configured initial budget of 3,
a state reached after three missed ticks has Forgive = 0 and pending code
"k"; the matching check-in yields Forgive = 1, not the initial budget 3. -/
theorem c3_counterexample :
    (handleRequest { emptyConfig with Forgive := 0, ForgiveCode := "k" } "k").1.Forgive = 1 ∧
      ¬ ((1 : Int) = 3) := by
  decide

/-- Updating `Forgive` and `ForgiveCode` does not change a challenge mail. -/
theorem challengeMail_update (c : config) (v : Int) (w code : String) :
    challengeMail { c with Forgive := v, ForgiveCode := w } code = challengeMail c code := rfl

/-- Updating `Forgive` and `ForgiveCode` does not change the trigger mail. -/
theorem triggerMail_update (c : config) (v : Int) (w : String) :
    triggerMail { c with Forgive := v, ForgiveCode := w } = triggerMail c := rfl

/-- A tick with at least one forgiveness left issues a challenge: the
counter is decremented, a fresh 16-rune code is stored, and the challenge
mail carries that code. -/
theorem clockTick_challenge (c : config) (rand : Nat → Nat) (h : 1 ≤ c.Forgive) :
    clockTick c rand = TickOutcome.challenge (challengeMail c (generateCode 16 rand))
      { c with Forgive := c.Forgive - 1, ForgiveCode := generateCode 16 rand } := by
  unfold clockTick
  rw [if_neg (by simp; omega)]
  rfl

/-- A tick with no forgiveness left triggers: the secret mail is emitted. -/
theorem clockTick_trigger (c : config) (rand : Nat → Nat) (h : c.Forgive ≤ 0) :
    clockTick c rand = TickOutcome.trigger (triggerMail c) := by
  unfold clockTick
  rw [if_pos (by simp; omega)]
  rfl

/-- A mail-recording tick on a running loop with no forgiveness left stops
the loop and appends the trigger mail. -/
theorem loopStepM_trigger (c : config) (acc : List Mail) (rand : Nat → Nat)
    (h : c.Forgive ≤ 0) :
    loopStepM (LoopState.running c, acc) rand = (LoopState.stopped, acc ++ [triggerMail c]) := by
  simp [loopStepM, clockTick_trigger c rand h]

/-- As long as the tick count stays within the forgiveness budget, the clock
keeps running: each tick decrements `Forgive` by one, stores some fresh code,
and sends exactly one challenge mail per tick. -/
theorem runClock_within_budget :
    ∀ (rands : List (Nat → Nat)) (c : config) (acc : List Mail),
      (rands.length : Int) ≤ c.Forgive →
      ∃ fc, List.foldl loopStepM (LoopState.running c, acc) rands =
        (LoopState.running { c with Forgive := c.Forgive - rands.length, ForgiveCode := fc },
          acc ++ rands.map (fun r => challengeMail c (generateCode 16 r))) := by
  intro rands
  induction rands with
  | nil =>
    intro c acc h
    refine ⟨c.ForgiveCode, ?_⟩
    simp
  | cons r t ih =>
    intro c acc h
    have hlen : ((r :: t).length : Int) = (t.length : Int) + 1 := by
      simp [List.length_cons]
    have h1 : 1 ≤ c.Forgive := by rw [hlen] at h; omega
    rw [List.foldl_cons]
    have hstep : loopStepM (LoopState.running c, acc) r =
        (LoopState.running { c with Forgive := c.Forgive - 1,
                                    ForgiveCode := generateCode 16 r },
          acc ++ [challengeMail c (generateCode 16 r)]) := by
      simp [loopStepM, clockTick_challenge c r h1]
    rw [hstep]
    have h2 : (t.length : Int) ≤
        ({ c with Forgive := c.Forgive - 1, ForgiveCode := generateCode 16 r} : config).Forgive := by
      simp only []
      rw [hlen] at h
      omega
    obtain ⟨fc, hfc⟩ := ih { c with Forgive := c.Forgive - 1, ForgiveCode := generateCode 16 r }
      (acc ++ [challengeMail c (generateCode 16 r)]) h2
    refine ⟨fc, ?_⟩
    rw [hfc]
    have harith : c.Forgive - 1 - (t.length : Int) = c.Forgive - ((r :: t).length : Int) := by
      rw [hlen]; omega
    simp only [challengeMail_update, List.map_cons, List.append_assoc, List.singleton_append,
      Prod.mk.injEq, LoopState.running.injEq, config.mk.injEq, and_true, true_and]
    exact harith

/-- Claim C4, amended theorem: from a fresh start with Forgive = B ≥ 0 and
no successful check-in, every one of the first B ticks leaves the clock
running with the counter decremented to B - k, and the (B+1)-th tick — never
an earlier one — triggers: with B = 0 the trigger occurs on the very first
tick and no challenge is ever issued.  The run sends exactly one challenge
mail per surviving tick and the secret mail — addressed to the comma-split
recipient list — exactly once, on the triggering tick. -/
theorem c4_amended_trigger_on_tick_succ_B (B : Nat) (c : config)
    (rands : List (Nat → Nat))
    (hB : c.Forgive = (B : Int)) (hlen : rands.length = B + 1) :
    (∀ k, k ≤ B → ∃ c2, (runClock c (rands.take k)).1 = LoopState.running c2 ∧
        c2.Forgive = (B : Int) - (k : Int)) ∧
    (runClock c rands).1 = LoopState.stopped ∧
    (runClock c rands).2 =
      (rands.take B).map (fun r => challengeMail c (generateCode 16 r)) ++ [triggerMail c] := by
  have htb : (rands.take B).length = B := by
    rw [List.length_take]
    omega
  have hfull : runClock c rands =
      (LoopState.stopped,
        (rands.take B).map (fun r => challengeMail c (generateCode 16 r)) ++ [triggerMail c]) := by
    obtain ⟨fc, hfc⟩ := runClock_within_budget (rands.take B) c []
      (by rw [htb, hB])
    obtain ⟨rl, hrl⟩ := List.length_eq_one.mp
      (show (rands.drop B).length = 1 by rw [List.length_drop]; omega)
    have hsplit : rands.take B ++ rands.drop B = rands := List.take_append_drop B rands
    unfold runClock
    conv_lhs => rw [← hsplit]
    rw [List.foldl_append, hfc, hrl, List.foldl_cons, List.foldl_nil]
    have hcB : ({ c with Forgive := c.Forgive - ((rands.take B).length : Int),
                         ForgiveCode := fc } : config).Forgive ≤ 0 := by
      simp only []
      rw [htb, hB]
      omega
    rw [loopStepM_trigger _ _ rl hcB]
    simp [triggerMail_update]
  refine ⟨?_, by rw [hfull], by rw [hfull]⟩
  intro k hk
  have htk : (rands.take k).length = k := by
    rw [List.length_take]
    omega
  obtain ⟨fc, hfc⟩ := runClock_within_budget (rands.take k) c []
    (by rw [htk, hB]; omega)
  refine ⟨{ c with Forgive := c.Forgive - ((rands.take k).length : Int), ForgiveCode := fc },
    ?_, ?_⟩
  · unfold runClock
    rw [hfc]
  · simp only []
    rw [htk, hB]

/-- Witness for the amended C4 at B = 1 with two ticks. -/
theorem c4_amended_witness :
    (runClock { emptyConfig with UserEmail := "o@x", Recipients := "a@x,b@x", Secret := "s", Forgive := 1 } [fun k => k, fun k => k + 1]).1 = LoopState.stopped ∧
    (runClock { emptyConfig with UserEmail := "o@x", Recipients := "a@x,b@x", Secret := "s", Forgive := 1 } [fun k => k, fun k => k + 1]).2 =
      (([fun k => k, fun k => k + 1].take 1).map
        (fun r => challengeMail { emptyConfig with UserEmail := "o@x", Recipients := "a@x,b@x", Secret := "s", Forgive := 1 } (generateCode 16 r))) ++
      [triggerMail { emptyConfig with UserEmail := "o@x", Recipients := "a@x,b@x", Secret := "s", Forgive := 1 }] :=
  (c4_amended_trigger_on_tick_succ_B 1
    { emptyConfig with UserEmail := "o@x", Recipients := "a@x,b@x", Secret := "s", Forgive := 1 }
    [fun k => k, fun k => k + 1] rfl rfl).2

/-- Counterexample to C4 as stated: with budget B = 0 the code triggers on
the very first tick — decrementing 0 to -1 before any challenge was ever
issued — whereas the claim says the first tick only issues the challenge and
the trigger occurs on the second tick. -/
theorem c4_counterexample :
    runClock { emptyConfig with UserEmail := "o@x", Recipients := "a@x,b@x", Secret := "s", Forgive := 0 } [fun k => k] =
      (LoopState.stopped,
        [triggerMail { emptyConfig with UserEmail := "o@x", Recipients := "a@x,b@x", Secret := "s", Forgive := 0 }]) := by
  rfl

/-- Claim C5, amended theorem: when a tick fires while no code is pending
(`ForgiveCode` empty) and at least one forgiveness remains, the engine
issues a new challenge — generates a code, stores it, mails the operator —
but it also decrements `remainingForgiveness` by one (the decrement is
unconditional in the code), rather than leaving it unchanged. -/
theorem c5_amended_empty_code_tick_decrements (c : config) (rand : Nat → Nat)
    (_hempty : c.ForgiveCode = "") (h : 1 ≤ c.Forgive) :
    clockTick c rand = TickOutcome.challenge (challengeMail c (generateCode 16 rand))
      { c with Forgive := c.Forgive - 1, ForgiveCode := generateCode 16 rand } :=
  clockTick_challenge c rand h

/-- Witness for the amended C5. -/
theorem c5_amended_witness :
    clockTick { emptyConfig with Forgive := 1 } (fun k => k) =
      TickOutcome.challenge
        (challengeMail { emptyConfig with Forgive := 1 } (generateCode 16 (fun k => k)))
        { emptyConfig with Forgive := 0, ForgiveCode := generateCode 16 (fun k => k) } :=
  c5_amended_empty_code_tick_decrements { emptyConfig with Forgive := 1 } (fun k => k)
    rfl (by decide)

/-- Counterexample to C5 as stated: a tick firing with `ForgiveCode` empty
and Forgive = 5 leaves Forgive = 4, not 5 — the tick does touch
`remainingForgiveness` even though no challenge was outstanding. -/
theorem c5_counterexample :
    clockTick { emptyConfig with Forgive := 5 } (fun k => k) =
      TickOutcome.challenge
        (challengeMail { emptyConfig with Forgive := 5 } (generateCode 16 (fun k => k)))
        { emptyConfig with Forgive := 4, ForgiveCode := generateCode 16 (fun k => k) } ∧
      ¬ ((4 : Int) = 5) :=
  ⟨clockTick_challenge { emptyConfig with Forgive := 5 } (fun k => k) (by decide),
    by decide⟩

/-- Claim C6, amended theorem: startup validation propagates the failures of
the external preflight steps in source order — in particular, when the
recipient list fails address-list parsing (the Go parser rejects an empty
list), `checks` errors out — but a non-positive interval is NOT rejected:
with all preflight steps succeeding, `checks` succeeds and replaces a
non-positive interval with the default 24-hour tick (and converts a positive
interval to interval x 24h). -/
theorem c6_amended_interval_defaulted_not_rejected (env : NetEnv) (c : config)
    (hd : env.dialOk = true) (ha : env.parseAddrOk c.UserEmail = true)
    (hs : env.sendOk = true) :
    (env.parseListOk c.Recipients = false →
        checks env c = Except.error CheckErr.listErr) ∧
    (env.parseListOk c.Recipients = true → c.Intervals ≤ 0 →
        checks env c = Except.ok { c with Tick := DefaultClockTick }) ∧
    (env.parseListOk c.Recipients = true → 0 < c.Intervals →
        checks env c = Except.ok { c with Tick := c.Intervals * 24 * hourNs }) := by
  refine ⟨?_, ?_, ?_⟩
  · intro hl
    simp [checks, hd, ha, hl]
  · intro hl hI
    simp [checks, hd, ha, hs, hl, show ¬(0 < c.Intervals) by omega]
  · intro hl hI
    simp [checks, hd, ha, hs, hl, hI]

/-- Witness for the amended C6: an empty recipient list is rejected (the
list parser fails on the empty string), while an interval of 0 with a
non-empty recipient list passes validation and gets the 24-hour default. -/
theorem c6_amended_witness :
    checks { dialOk := true, parseAddrOk := fun _ => true,
             parseListOk := fun s => !(s == ""), sendOk := true }
        { emptyConfig with UserEmail := "o@x" } = Except.error CheckErr.listErr ∧
    checks { dialOk := true, parseAddrOk := fun _ => true,
             parseListOk := fun s => !(s == ""), sendOk := true }
        { emptyConfig with UserEmail := "o@x", Recipients := "a@x" } =
      Except.ok { emptyConfig with UserEmail := "o@x", Recipients := "a@x", Tick := DefaultClockTick } :=
  ⟨(c6_amended_interval_defaulted_not_rejected _
      { emptyConfig with UserEmail := "o@x" } rfl rfl rfl).1 rfl,
    (c6_amended_interval_defaulted_not_rejected _
      { emptyConfig with UserEmail := "o@x", Recipients := "a@x" } rfl rfl rfl).2.1
      rfl (by decide)⟩

/-- Counterexample to C6 as stated: a configuration whose interval is 0
passes `checks` when every external preflight step succeeds — the
non-positive interval is not rejected but silently replaced by the default
24-hour tick, so startup validation does not fail whenever the interval is
non-positive. -/
theorem c6_counterexample :
    checks { dialOk := true, parseAddrOk := fun _ => true,
             parseListOk := fun _ => true, sendOk := true }
        { emptyConfig with UserEmail := "o@x", Recipients := "a@x", Intervals := 0 } =
      Except.ok { emptyConfig with UserEmail := "o@x", Recipients := "a@x", Intervals := 0, Tick := DefaultClockTick } := by
  rfl
